import Mathlib

set_option maxRecDepth 16000
set_option maxHeartbeats 1000000

/-!
Verification development for MMM-SynologyPhotos.

Shallow embedding of the repository's node helper (`node_helper.js`) and of
the connection diagnostic tool (`test_connection.js`), together with theorems
settling the specification claims about them.  JavaScript values that may be
absent are modelled with `Option`; JavaScript truthiness is made explicit;
network interactions are passed in as explicit environments; a thrown network
error is an `Except.error`.
-/

namespace SynologyPhotos

/-- JavaScript primitive values as they appear in parsed JSON payloads. -/
inductive JsVal where
  | str (s : String)
  | bool (b : Bool)
  | num (n : Int)
  | null
deriving DecidableEq

/-- Truthiness of an optional JavaScript boolean (`undefined` and `false` are falsy). -/
def jsTruthyBool : Option Bool → Bool
  | some b => b
  | none => false

/-- Truthiness of an optional JavaScript number (`undefined`, `null` and `0` are falsy). -/
def jsTruthyInt : Option Int → Bool
  | some n => !(n == 0)
  | none => false

/-- Truthiness of an optional JavaScript string (`undefined`, `null` and `""` are falsy). -/
def jsTruthyStr : Option String → Bool
  | some s => !(s == "")
  | none => false

/-- JavaScript `x || d` on an optional number. -/
def jsOrInt (o : Option Int) (d : Int) : Int :=
  if jsTruthyInt o then o.getD d else d

/-- JavaScript `x || d` on an optional string. -/
def jsOrStr (o : Option String) (d : String) : String :=
  if jsTruthyStr o then o.getD d else d

/-- JavaScript `x || d` on an optional unsigned number (0 and absent are falsy). -/
def jsOrNat (o : Option Nat) (d : Nat) : Nat :=
  match o with
  | some n => if n == 0 then d else n
  | none => d

/-- Whether `pat` occurs at the start of `s`, on character lists. -/
def listStartsWith : List Char → List Char → Bool
  | _, [] => true
  | [], _ :: _ => false
  | c :: cs, p :: ps => c == p && listStartsWith cs ps

/-- Whether `pat` occurs as a contiguous run inside `s`, on character lists. -/
def listContainsSeq : List Char → List Char → Bool
  | [], pat => listStartsWith [] pat
  | c :: cs, pat => listStartsWith (c :: cs) pat || listContainsSeq cs pat

/-- JavaScript `String.prototype.includes`. -/
def strIncludes (s pat : String) : Bool :=
  listContainsSeq s.toList pat.toList

/-- The module configuration fields consumed by `node_helper.js`.  `Option`
fields model values the user may leave out (JavaScript `undefined`/`null`). -/
structure Config where
  serverUrl : String
  port : Option Nat
  secure : Option Bool
  account : String
  password : String
  sharedSpace : Bool
  albumId : Option Int
  folderId : Option Int
  numPhotos : Option Int
  thumbnailSize : Option String
  shuffle : Bool
  sortBy : Option String
deriving DecidableEq

/-- The `:port` fragment of a base URL; JavaScript renders the empty string
when `port` is falsy (absent or 0). -/
def portFragment (port : Option Nat) : String :=
  match port with
  | some p => if p == 0 then "" else ":" ++ toString p
  | none => ""

/-- `node_helper.js` `isQuickConnect`: the server URL contains
"quickconnect.to". -/
def isQuickConnect (cfg : Config) : Bool :=
  strIncludes cfg.serverUrl "quickconnect.to"

/-- `node_helper.js` `getApiPath`: QuickConnect deployments use `/webapi`,
direct connections the standard `/photo/webapi`. -/
def getApiPath (cfg : Config) : String :=
  if isQuickConnect cfg then "/webapi" else "/photo/webapi"

/-- `node_helper.js` `getBaseUrl`: the protocol is https unless `secure` is
exactly `false` (`secure !== false`). -/
def getBaseUrl (cfg : Config) : String :=
  (if cfg.secure == some false then "http" else "https") ++ "://" ++
    cfg.serverUrl ++ portFragment cfg.port

/-- Base URL as computed inline by `node_helper.js` `login`: the protocol is
https only when `secure` is truthy (`secure ? "https" : "http"`). -/
def loginBaseUrl (cfg : Config) : String :=
  (if jsTruthyBool cfg.secure then "https" else "http") ++ "://" ++
    cfg.serverUrl ++ portFragment cfg.port

/-- A Synology API GET request: base URL, path, and query parameters in
insertion order (mirroring `URLSearchParams`). -/
structure ApiRequest where
  baseUrl : String
  path : String
  params : List (String × String)
deriving DecidableEq

/-- First value bound to a query-parameter key. -/
def paramLookup (ps : List (String × String)) (key : String) : Option String :=
  (ps.find? (fun kv => kv.1 == key)).map (fun kv => kv.2)

/-- The login request of `node_helper.js` `login`, with the optional persisted
device token appended for 2FA bypass. -/
def loginRequest (cfg : Config) (deviceId : Option String) : ApiRequest :=
  { baseUrl := loginBaseUrl cfg
    path := getApiPath cfg ++ "/auth.cgi"
    params :=
      [("api", "SYNO.API.Auth"), ("version", "6"), ("method", "login"),
       ("account", cfg.account), ("passwd", cfg.password)] ++
      (match deviceId with
       | some d => [("device_id", d), ("device_name", "MagicMirror")]
       | none => []) }

/-- The four photo sources the fetch orchestrator can query. -/
inductive Source where
  | album (id : Int)
  | folder (id : Int)
  | team
  | personal
deriving DecidableEq

/-- API name used by the browse request of each source. -/
def browseApi : Source → String
  | .team => "SYNO.FotoTeam.Browse.Item"
  | _ => "SYNO.Foto.Browse.Item"

/-- Source-specific id parameter of the browse request. -/
def sourceIdParams : Source → List (String × String)
  | .album id => [("album_id", toString id)]
  | .folder id => [("folder_id", toString id)]
  | _ => []

/-- The browse request issued by `fetchPersonalPhotos` / `fetchTeamPhotos` /
`fetchAlbumPhotos` / `fetchFolderPhotos`; the four differ only in the API name
and the extra id parameter. -/
def browseRequest (cfg : Config) (src : Source) (sid : String) (offset limit : Int) : ApiRequest :=
  { baseUrl := getBaseUrl cfg
    path := getApiPath cfg ++ "/entry.cgi"
    params :=
      [("api", browseApi src), ("version", "1"), ("method", "list"), ("type", "photo"),
       ("offset", toString offset), ("limit", toString limit)] ++
      sourceIdParams src ++
      [("_sid", sid), ("additional", "[\"thumbnail\",\"resolution\"]")] }

/-- Pixel resolution attached to a listing item. -/
structure Resolution where
  width : Int
  height : Int
deriving DecidableEq

/-- The per-size thumbnail-readiness map of a listing item, plus its cache
key.  Readiness entries are keyed by size name; their values vary across DSM
versions. -/
structure ThumbInfo where
  entries : List (String × JsVal)
  cache_key : String
deriving DecidableEq

/-- The `additional` payload of a listing item. -/
structure AdditionalInfo where
  thumbnail : Option ThumbInfo
  resolution : Option Resolution
deriving DecidableEq

/-- A raw listing entry returned by a browse request. -/
structure RawItem where
  id : Int
  filename : String
  time : Int
  additional : Option AdditionalInfo
deriving DecidableEq

/-- A normalized Photo record handed to the display layer. -/
structure Photo where
  id : Int
  filename : String
  url : String
  width : Option Int
  height : Option Int
  time : Int
deriving DecidableEq

/-- JavaScript property read `thumb[size]` on the readiness map. -/
def thumbLookup (t : ThumbInfo) (size : String) : Option JsVal :=
  (t.entries.find? (fun kv => kv.1 == size)).map (fun kv => kv.2)

/-- The thumbnail map reached by `p.additional.thumbnail`, when present. -/
def thumbMapOf (p : RawItem) : Option ThumbInfo :=
  p.additional.bind (fun a => a.thumbnail)

/-- The retention filter of `fetchPhotos`: `p.additional &&
p.additional.thumbnail && (thumb[size] === "ready" || thumb[size] === true)`. -/
def thumbReady (size : String) (p : RawItem) : Bool :=
  match p.additional with
  | none => false
  | some a =>
    match a.thumbnail with
    | none => false
    | some t =>
      thumbLookup t size == some (JsVal.str "ready") ||
        thumbLookup t size == some (JsVal.bool true)

/-- Cache-key access `photo.additional.thumbnail.cache_key`; the orchestrator
only evaluates it on items that passed the thumbnail filter, which guarantees
both fields are present. -/
def cacheKeyOf (p : RawItem) : String :=
  match thumbMapOf p with
  | some t => t.cache_key
  | none => ""

/-- Characters that JavaScript `encodeURIComponent` leaves unescaped: ASCII
alphanumerics and the marks `-_.!~*'()` (the apostrophe is written by code
point). -/
def uriUnreserved (c : Char) : Bool :=
  c.isAlphanum || c == '-' || c == '_' || c == '.' || c == '!' || c == '~' ||
    c == '*' || c == Char.ofNat 39 || c == '(' || c == ')'

/-- Uppercase hexadecimal digit. -/
def hexDigit (n : Nat) : Char :=
  if n < 10 then Char.ofNat (48 + n) else Char.ofNat (55 + n)

/-- UTF-8 byte sequence of a code point. -/
def utf8Bytes (n : Nat) : List Nat :=
  if n < 128 then [n]
  else if n < 2048 then [192 + n / 64, 128 + n % 64]
  else if n < 65536 then [224 + n / 4096, 128 + n / 64 % 64, 128 + n % 64]
  else [240 + n / 262144, 128 + n / 4096 % 64, 128 + n / 64 % 64, 128 + n % 64]

/-- Percent-encoding of one escaped character. -/
def percentEncodeChar (c : Char) : List Char :=
  (utf8Bytes c.toNat).flatMap (fun b => ['%', hexDigit (b / 16), hexDigit (b % 16)])

/-- `encodeURIComponent` on a character list. -/
def encodeUriList : List Char → List Char
  | [] => []
  | c :: cs => (if uriUnreserved c then [c] else percentEncodeChar c) ++ encodeUriList cs

/-- JavaScript `encodeURIComponent`. -/
def encodeURIComponent (s : String) : String :=
  String.mk (encodeUriList s.toList)

/-- `node_helper.js` `buildThumbnailUrl`: the fully signed thumbnail URL,
ending in the `_sid` query parameter. -/
def buildThumbnailUrl (cfg : Config) (sid : String) (p : RawItem) (size : String) : String :=
  getBaseUrl cfg ++ getApiPath cfg ++ "/entry.cgi" ++
    "?api=" ++ (if cfg.sharedSpace then "SYNO.FotoTeam.Thumbnail" else "SYNO.Foto.Thumbnail") ++
    "&version=1" ++ "&method=get" ++ "&mode=download" ++
    "&id=" ++ toString p.id ++ "&type=unit" ++ "&size=" ++ size ++
    "&cache_key=" ++ cacheKeyOf p ++ "&_sid=" ++ sid

/-- The normalization map of `fetchPhotos`: the served `url` is the local
proxy path wrapping the URI-encoded signed thumbnail URL. -/
def normalizePhoto (cfg : Config) (sid size : String) (p : RawItem) : Photo :=
  { id := p.id
    filename := p.filename
    url := "/synology-photos/image?url=" ++ encodeURIComponent (buildThumbnailUrl cfg sid p size)
    width :=
      match p.additional with
      | some a => a.resolution.map (fun r => r.width)
      | none => none
    height :=
      match p.additional with
      | some a => a.resolution.map (fun r => r.height)
      | none => none
    time := p.time }

/-- Swap of two positions, as performed by the destructuring assignment inside
the Fisher-Yates loop of `fetchPhotos`. -/
def listSwap {α : Type} (l : List α) (i j : Nat) : List α :=
  match l[i]?, l[j]? with
  | some x, some y => (l.set i y).set j x
  | some _, none => l
  | none, _ => l

/-- Fisher-Yates loop of `fetchPhotos`, counting the index down to 1; the
random draw for index `i` is `rand i % (i+1)`, covering exactly the JavaScript
range of `Math.floor(Math.random() * (i + 1))`. -/
def shuffleLoop (rand : Nat → Nat) : Nat → List Photo → List Photo
  | 0, l => l
  | i + 1, l => shuffleLoop rand i (listSwap l (i + 1) (rand (i + 1) % (i + 2)))

/-- The shuffle stage of `fetchPhotos`. -/
def shufflePhotos (rand : Nat → Nat) (l : List Photo) : List Photo :=
  shuffleLoop rand (l.length - 1) l

/-- JavaScript comparator `(a, b) => b.time - a.time` read as a sorting
relation: `a` may precede `b` exactly when `b.time ≤ a.time`. -/
def timeDescLe (a b : Photo) : Bool :=
  decide (b.time ≤ a.time)

/-- The ordering stage of `fetchPhotos`: shuffle wins over sort-by-time;
otherwise the remote order is preserved. -/
def orderPhase (cfg : Config) (rand : Nat → Nat) (l : List Photo) : List Photo :=
  if cfg.shuffle then shufflePhotos rand l
  else if cfg.sortBy == some "time" then l.mergeSort timeDescLe
  else l

/-- Source selection of `fetchPhotos`: the if/else chain on truthy `albumId`,
truthy `folderId`, `sharedSpace`, with personal space as the default. -/
def selectedSource (cfg : Config) : Source :=
  if jsTruthyInt cfg.albumId then .album (cfg.albumId.getD 0)
  else if jsTruthyInt cfg.folderId then .folder (cfg.folderId.getD 0)
  else if cfg.sharedSpace then .team
  else .personal

/-- A browse response body: `success` flag and `data.list`. -/
structure BrowseResp where
  success : Bool
  list : List RawItem
deriving DecidableEq

/-- One fetch cycle's interaction with the outside world: whether login
succeeds, the granted session id, each source's browse outcome (`Except.error`
for a thrown network error), the random draws of the shuffle, and the
persisted device token. -/
structure FetchEnv where
  loginOk : Bool
  sid : String
  browse : Source → Except String BrowseResp
  rand : Nat → Nat
  deviceId : Option String

/-- Mutable node-helper state: current session id and published catalog. -/
structure HelperState where
  sid : Option String
  photos : List Photo
deriving DecidableEq

/-- The socket notification emitted at the end of a fetch cycle. -/
inductive Notification where
  | data (photos : List Photo)
  | error (msg : String)
deriving DecidableEq

/-- Result of one fetch cycle: updated state, emitted notification, sources
browsed, and requests issued. -/
structure CycleResult where
  state : HelperState
  notif : Notification
  browsed : List Source
  requests : List ApiRequest
deriving DecidableEq

/-- Message emitted by `fetchPhotos` when login fails. -/
def loginFailMsg : String := "Login failed. Check your credentials and server URL."

/-- One run of `node_helper.js` `fetchPhotos`: login, browse the selected
source, filter by thumbnail readiness, normalize, order, publish.  A
browse-level failure response (`success: false`) leaves the listing variable
empty but still follows the success path to the data notification. -/
def fetchCycle (st : HelperState) (cfg : Config) (env : FetchEnv) : CycleResult :=
  if env.loginOk then
    let sid := env.sid
    let limit := jsOrInt cfg.numPhotos 100
    let size := jsOrStr cfg.thumbnailSize "xl"
    let src := selectedSource cfg
    let reqs := [loginRequest cfg env.deviceId, browseRequest cfg src sid 0 limit]
    match env.browse src with
    | .error msg =>
      { state := { st with sid := some sid }
        notif := .error msg
        browsed := [src]
        requests := reqs }
    | .ok resp =>
      let photoList := if resp.success then resp.list else []
      let photos := (photoList.filter (thumbReady size)).map (normalizePhoto cfg sid size)
      let ordered := orderPhase cfg env.rand photos
      { state := { sid := some sid, photos := ordered }
        notif := .data ordered
        browsed := [src]
        requests := reqs }
  else
    { state := st
      notif := .error loginFailMsg
      browsed := []
      requests := [loginRequest cfg env.deviceId] }

/-- An upstream fetch response as seen by the thumbnail proxy. -/
structure Upstream where
  status : Nat
  statusText : String
  contentType : Option String
  body : String
deriving DecidableEq

/-- A response written by the proxy route. -/
structure ProxyResponse where
  status : Nat
  body : String
  contentType : Option String
  cacheControl : Option String
deriving DecidableEq

/-- node-fetch `response.ok`: status in the 200-299 range. -/
def upstreamOk (u : Upstream) : Bool :=
  decide (200 ≤ u.status) && decide (u.status ≤ 299)

/-- The proxy route handler installed by `setupProxy`.  Returns the response
together with whether an upstream fetch was attempted; `fetchResult` is the
outcome of that fetch when attempted (`Except.error` for a thrown error). -/
def handleProxyRequest (targetUrl : Option String) (fetchResult : Except String Upstream) :
    ProxyResponse × Bool :=
  if jsTruthyStr targetUrl then
    match fetchResult with
    | .error _ =>
      ({ status := 500, body := "Proxy error", contentType := none, cacheControl := none }, true)
    | .ok up =>
      if upstreamOk up then
        ({ status := 200, body := up.body
           contentType := some (jsOrStr up.contentType "image/jpeg")
           cacheControl := some "public, max-age=86400" }, true)
      else
        ({ status := up.status, body := up.statusText, contentType := none, cacheControl := none }, true)
  else
    ({ status := 400, body := "Missing URL", contentType := none, cacheControl := none }, false)

/-- A connection candidate of `test_connection.js`: base URL plus display
label. -/
structure Candidate where
  url : String
  label : String
deriving DecidableEq

/-- Strip a leading `http://` or `https://` (the `^https?:\/\/` replace of
`parseServer`). -/
def stripProtocol (r : String) : String :=
  if listStartsWith r.toList "https://".toList then String.mk (r.toList.drop 8)
  else if listStartsWith r.toList "http://".toList then String.mk (r.toList.drop 7)
  else r

/-- JavaScript `String.prototype.split` with a one-character separator, on
character lists. -/
def splitOnChar (sep : Char) : List Char → List (List Char)
  | [] => [[]]
  | c :: cs =>
    match splitOnChar sep cs with
    | [] => [[]]
    | h :: t => if c == sep then [] :: h :: t else (c :: h) :: t

/-- Whether `pat` occurs at the end of `s`, on character lists. -/
def listEndsWith (s pat : List Char) : Bool :=
  listStartsWith s.reverse pat.reverse

/-- Strip trailing slashes (the `\/+$` replace of `parseServer`). -/
def stripTrailingSlashes (r : String) : String :=
  String.mk ((r.toList.reverse.dropWhile (fun c => c == '/')).reverse)

/-- A parsed server argument.  `port = none` models JavaScript `null` (relay
addresses) or a `parseInt` that produced `NaN`. -/
structure ServerTarget where
  host : String
  port : Option Nat
  isQuickConnect : Bool
deriving DecidableEq

/-- Leading-digits `parseInt(s, 10)`; `none` models `NaN`. -/
def jsParseInt (s : String) : Option Nat :=
  let ds := s.toList.takeWhile (fun c => c.isDigit)
  if ds.isEmpty then none
  else some (ds.foldl (fun n c => 10 * n + (c.toNat - 48)) 0)

/-- `test_connection.js` `parseServer`. -/
def parseServer (serverArg : String) : ServerTarget :=
  let raw := stripTrailingSlashes (stripProtocol serverArg)
  if strIncludes raw "quickconnect.to" then
    { host := raw, port := none, isQuickConnect := true }
  else
    let parts := (splitOnChar ':' raw.toList).map String.mk
    { host := parts.headD ""
      port :=
        match parts[1]? with
        | some t => if t == "" then some 5001 else jsParseInt t
        | none => some 5001
      isQuickConnect := false }

/-- One advertised LAN interface in a relay discovery response. -/
structure IfaceInfo where
  ip : Option String
  port : Option Nat
deriving DecidableEq

/-- The `external` block of a relay discovery response. -/
structure ExternalInfo where
  ip : Option String
  port : Option Nat
deriving DecidableEq

/-- The `server` block of a relay discovery response. -/
structure ServerInfo where
  interface : Option (List IfaceInfo)
  ddns : Option String
  external : Option ExternalInfo
deriving DecidableEq

/-- Candidates pushed when a relay response carries a `server` block: each
truthy LAN interface IP in order, then the DDNS name, then the external IP. -/
def candidatesFromServer (srv : ServerInfo) : List Candidate :=
  let httpsPort := jsOrNat (srv.external.bind (fun e => e.port)) 5001
  ((srv.interface.getD []).filterMap (fun i =>
      match i.ip with
      | some ip =>
        if ip == "" then none
        else some { url := "https://" ++ ip ++ ":" ++ toString (jsOrNat i.port 5001)
                    label := "LAN (" ++ ip ++ ")" }
      | none => none)) ++
  (match srv.ddns with
   | some d =>
     if d == "" then []
     else [{ url := "https://" ++ d ++ ":" ++ toString httpsPort, label := "DDNS (" ++ d ++ ")" }]
   | none => []) ++
  (match srv.external with
   | some e =>
     match e.ip with
     | some ip =>
       if ip == "" then []
       else [{ url := "https://" ++ ip ++ ":" ++ toString httpsPort, label := "External IP" }]
     | none => []
   | none => [])

/-- Server id and region parsed out of the QuickConnect domain (the
`.quickconnect.to` suffix is removed, the rest split on dots). -/
def qcParts (fullDomain : String) : List String :=
  let l := fullDomain.toList
  let base := if listEndsWith l ".quickconnect.to".toList then l.take (l.length - 16) else l
  (splitOnChar '.' base).map String.mk

/-- The relay coordinator URLs tried in order: region-specific first when a
region is present, then the global endpoint. -/
def relayUrls (fullDomain : String) : List String :=
  let parts := qcParts fullDomain
  let region :=
    match parts[1]? with
    | some r => if r == "" then none else some r
    | none => none
  (match region with
   | some r => ["https://" ++ r ++ ".quickconnect.to/Serv.php"]
   | none => []) ++ ["https://global.quickconnect.to/Serv.php"]

/-- Outcome of one relay query: a thrown error, a parsed payload without a
usable `server` block, or a payload with one. -/
abbrev RelayOutcome := Except String (Option ServerInfo)

/-- The relay loop of `resolveQuickConnect`: the first response with a
`server` block yields its candidates and breaks; errors and server-less
payloads continue to the next relay URL. -/
def relayLoop (query : String → RelayOutcome) : List String → List Candidate
  | [] => []
  | u :: rest =>
    match query u with
    | .error _ => relayLoop query rest
    | .ok none => relayLoop query rest
    | .ok (some srv) => candidatesFromServer srv

/-- `test_connection.js` `resolveQuickConnect`: relay-discovered candidates
followed by the last-resort QuickConnect candidate, which is always pushed. -/
def resolveQuickConnect (fullDomain : String) (query : String → RelayOutcome) : List Candidate :=
  relayLoop query (relayUrls fullDomain) ++ [{ url := "https://" ++ fullDomain, label := "QuickConnect" }]

/-- Rendering of the parsed port inside a candidate URL (`NaN` when `parseInt`
failed). -/
def portDisplay : Option Nat → String
  | some p => toString p
  | none => "NaN"

/-- The single candidate built for a direct (non-relay) address in
`test_connection.js` `main`: http only for port 5000, otherwise https. -/
def directCandidate (s : ServerTarget) : Candidate :=
  { url := (if s.port == some 5000 then "http" else "https") ++ "://" ++ s.host ++ ":" ++
      portDisplay s.port
    label := "Direct" }

/-- STEP 1 candidate list of `main`: relay resolution for QuickConnect
targets, exactly one direct candidate otherwise. -/
def stepOneCandidates (s : ServerTarget) (query : String → RelayOutcome) : List Candidate :=
  if s.isQuickConnect then resolveQuickConnect s.host query else [directCandidate s]

/-- The two API path prefixes tried for every candidate, in this order. -/
def apiPaths : List String := ["/webapi", "/photo/webapi"]

/-- Inner loop of the endpoint probe in `main`: the first path that tests ok
wins. -/
def probePaths (test : Candidate → String → Bool) (c : Candidate) : List String → Option (Candidate × String)
  | [] => none
  | p :: ps => if test c p then some (c, p) else probePaths test c ps

/-- Outer loop of the endpoint probe in `main`: the first candidate with a
working path wins. -/
def probeLoop (test : Candidate → String → Bool) : List Candidate → Option (Candidate × String)
  | [] => none
  | c :: cs =>
    match probePaths test c apiPaths with
    | some r => some r
    | none => probeLoop test cs

/-- Number of configured (truthy) source selectors; personal space is the
default, not a selector. -/
def selectorsSetCount (cfg : Config) : Nat :=
  (if jsTruthyInt cfg.albumId then 1 else 0) +
    (if jsTruthyInt cfg.folderId then 1 else 0) +
    (if cfg.sharedSpace then 1 else 0)

/-- Concrete direct-connection configuration used by concrete-input theorems. -/
def cfgDirect : Config :=
  { serverUrl := "192.168.1.100", port := some 5001, secure := some true,
    account := "user", password := "pw", sharedSpace := false,
    albumId := none, folderId := none, numPhotos := some 5,
    thumbnailSize := some "xl", shuffle := false, sortBy := none }

/-- A listing item whose xl thumbnail is ready. -/
def itemReadyXl : RawItem :=
  { id := 1, filename := "a.jpg", time := 100,
    additional := some
      { thumbnail := some { entries := [("xl", JsVal.str "ready")], cache_key := "ck1" }
        resolution := some { width := 1000, height := 800 } } }

/-- A previously published photo standing for the stale catalog. -/
def photoPrev : Photo :=
  { id := 9, filename := "old.jpg", url := "/synology-photos/image?url=old",
    width := none, height := none, time := 1 }

/-- Helper state holding a previously published non-empty catalog. -/
def stPrev : HelperState := { sid := some "s1", photos := [photoPrev] }

/-- Helper state with an empty catalog. -/
def stEmpty : HelperState := { sid := none, photos := [] }

/-- Environment in which login fails. -/
def envLoginFail : FetchEnv :=
  { loginOk := false, sid := "", browse := fun _ => .error "unreached",
    rand := fun _ => 0, deviceId := none }

/-- Environment in which the browse request answers with a failure response
(`success: false`). -/
def envBrowseFail : FetchEnv :=
  { loginOk := true, sid := "s2", browse := fun _ => .ok { success := false, list := [] },
    rand := fun _ => 0, deviceId := none }

/-- Environment granting a session and one ready listing item. -/
def envOkOneItem : FetchEnv :=
  { loginOk := true, sid := "sidABC123",
    browse := fun _ => .ok { success := true, list := [itemReadyXl] },
    rand := fun _ => 0, deviceId := none }

/-- Retention condition in the spec's words: the item has a
thumbnail-readiness map whose entry for the target size is the string "ready"
or the boolean `true`; a missing map, a missing entry, or any other value
drops the item.  Stated separately from `thumbReady` (the source translation)
so the two can be compared. -/
def specThumbnailReady (size : String) (p : RawItem) : Bool :=
  match thumbMapOf p with
  | some t =>
    thumbLookup t size == some (JsVal.str "ready") ||
      thumbLookup t size == some (JsVal.bool true)
  | none => false

/-- Concrete configuration targeting size "sm" (the spec's filtering example). -/
def cfgSm : Config :=
  { cfgDirect with thumbnailSize := some "sm" }

/-- The spec example's first item: sm thumbnail ready. -/
def itemSmReady : RawItem :=
  { id := 1, filename := "one.jpg", time := 11,
    additional := some
      { thumbnail := some { entries := [("sm", JsVal.str "ready")], cache_key := "c1" }
        resolution := none } }

/-- The spec example's second item: sm thumbnail still processing. -/
def itemSmProcessing : RawItem :=
  { id := 2, filename := "two.jpg", time := 22,
    additional := some
      { thumbnail := some { entries := [("sm", JsVal.str "processing")], cache_key := "c2" }
        resolution := none } }

/-- Environment serving the spec example's two-item listing. -/
def envSm : FetchEnv :=
  { loginOk := true, sid := "sidSm",
    browse := fun _ => .ok { success := true, list := [itemSmReady, itemSmProcessing] },
    rand := fun _ => 0, deviceId := none }

/-- Configuration with several source selectors configured at once. -/
def cfgMulti : Config :=
  { cfgDirect with albumId := some 5, folderId := some 7, sharedSpace := true }

/-- Configuration with shuffle off and sort-by-time on. -/
def cfgSortTime : Config :=
  { cfgDirect with shuffle := false, sortBy := some "time" }

/-- A second xl-ready item, captured later than `itemReadyXl`. -/
def itemReadyXl2 : RawItem :=
  { id := 2, filename := "b.jpg", time := 900,
    additional := some
      { thumbnail := some { entries := [("xl", JsVal.str "ready")], cache_key := "ck2" }
        resolution := none } }

/-- Environment serving two xl-ready items out of time order. -/
def envTwoItems : FetchEnv :=
  { loginOk := true, sid := "sidT",
    browse := fun _ => .ok { success := true, list := [itemReadyXl, itemReadyXl2] },
    rand := fun _ => 0, deviceId := none }

/-- Configuration requesting zero photos. -/
def cfgNumZero : Config :=
  { cfgDirect with numPhotos := some 0 }

/-- Configuration leaving the `secure` flag unset. -/
def cfgNoSecure : Config :=
  { cfgDirect with secure := none }

/-- Endpoint tester accepting only the `/photo/webapi` path variant. -/
def testSecondPath : Candidate → String → Bool :=
  fun _ p => p == "/photo/webapi"

/-- Relay query that always fails with a network error. -/
def queryNever : String → RelayOutcome :=
  fun _ => .error "network down"

/-- Permutation helper: replacing the element at `m` by `a` and re-consing the
replaced element permutes consing `a` directly. -/
theorem cons_set_perm {α : Type} (t : List α) (m : Nat) (y a : α) (h : t[m]? = some y) :
    (y :: t.set m a).Perm (a :: t) := by
  induction t generalizing m with
  | nil => simp at h
  | cons b s ih =>
    cases m with
    | zero =>
      simp only [List.getElem?_cons_zero, Option.some.injEq] at h
      subst h
      simpa using List.Perm.swap a b s
    | succ k =>
      simp only [List.getElem?_cons_succ] at h
      have h1 : (y :: b :: s.set k a).Perm (b :: y :: s.set k a) := List.Perm.swap b y _
      have h2 : (b :: y :: s.set k a).Perm (b :: a :: s) := List.Perm.cons b (ih k h)
      have h3 : (b :: a :: s).Perm (a :: b :: s) := List.Perm.swap a b s
      simpa using (h1.trans h2).trans h3

/-- The double `set` performed by an array swap is a permutation. -/
theorem set_set_swap_perm {α : Type} (l : List α) (i j : Nat) (x y : α)
    (hx : l[i]? = some x) (hy : l[j]? = some y) :
    ((l.set i y).set j x).Perm l := by
  induction l generalizing i j with
  | nil => simp at hx
  | cons a t ih =>
    cases i with
    | zero =>
      simp only [List.getElem?_cons_zero, Option.some.injEq] at hx
      subst hx
      cases j with
      | zero =>
        simp only [List.getElem?_cons_zero, Option.some.injEq] at hy
        subst hy
        simp
      | succ k =>
        simp only [List.getElem?_cons_succ] at hy
        simpa using cons_set_perm t k y a hy
    | succ m =>
      simp only [List.getElem?_cons_succ] at hx
      cases j with
      | zero =>
        simp only [List.getElem?_cons_zero, Option.some.injEq] at hy
        subst hy
        simpa using cons_set_perm t m x a hx
      | succ k =>
        simp only [List.getElem?_cons_succ] at hy
        simpa using List.Perm.cons a (ih m k hx hy)

/-- The JavaScript destructuring swap is a permutation. -/
theorem listSwap_perm {α : Type} (l : List α) (i j : Nat) : (listSwap l i j).Perm l := by
  cases hx : l[i]? with
  | none => simp [listSwap, hx]
  | some x =>
    cases hy : l[j]? with
    | none => simp [listSwap, hx, hy]
    | some y => simpa [listSwap, hx, hy] using set_set_swap_perm l i j x y hx hy

/-- Every pass of the Fisher-Yates loop is a permutation. -/
theorem shuffleLoop_perm (rand : Nat → Nat) (n : Nat) (l : List Photo) :
    (shuffleLoop rand n l).Perm l := by
  induction n generalizing l with
  | zero => exact List.Perm.refl l
  | succ i ih => exact (ih _).trans (listSwap_perm l (i + 1) (rand (i + 1) % (i + 2)))

/-- The shuffle stage is a permutation. -/
theorem shufflePhotos_perm (rand : Nat → Nat) (l : List Photo) :
    (shufflePhotos rand l).Perm l :=
  shuffleLoop_perm rand (l.length - 1) l

/-- The whole ordering stage is a permutation of its input. -/
theorem orderPhase_perm (cfg : Config) (rand : Nat → Nat) (l : List Photo) :
    (orderPhase cfg rand l).Perm l := by
  unfold orderPhase
  split_ifs with h1 h2
  · exact shufflePhotos_perm rand l
  · exact List.mergeSort_perm l timeDescLe
  · exact List.Perm.refl l

/-- The ordering stage of an empty listing is empty. -/
theorem orderPhase_nil (cfg : Config) (rand : Nat → Nat) : orderPhase cfg rand [] = [] := by
  unfold orderPhase
  split_ifs with h1 h2 <;> simp [shufflePhotos, shuffleLoop]

/-- `encodeUriList` distributes over append. -/
theorem encodeUriList_append (a b : List Char) :
    encodeUriList (a ++ b) = encodeUriList a ++ encodeUriList b := by
  induction a with
  | nil => rfl
  | cons c cs ih => simp [encodeUriList, ih]

/-- `encodeUriList` fixes strings made of unreserved characters. -/
theorem encodeUriList_of_unreserved (s : List Char) (h : ∀ c ∈ s, uriUnreserved c = true) :
    encodeUriList s = s := by
  induction s with
  | nil => rfl
  | cons c cs ih =>
    have hc := h c (by simp)
    simp [encodeUriList, hc, ih (fun x hx => h x (by simp [hx]))]

/-- A data notification arises only on the full success path, and then carries
the ordered, normalized, filtered listing of that cycle. -/
theorem fetchCycle_data_eq (st : HelperState) (cfg : Config) (env : FetchEnv) (l : List Photo)
    (h : (fetchCycle st cfg env).notif = .data l) :
    env.loginOk = true ∧
      ∃ resp, env.browse (selectedSource cfg) = .ok resp ∧
        l = orderPhase cfg env.rand
          (((if resp.success then resp.list else []).filter
              (thumbReady (jsOrStr cfg.thumbnailSize "xl"))).map
            (normalizePhoto cfg env.sid (jsOrStr cfg.thumbnailSize "xl"))) := by
  by_cases hl : env.loginOk
  · refine ⟨hl, ?_⟩
    cases hb : env.browse (selectedSource cfg) with
    | error m => simp [fetchCycle, hl, hb] at h
    | ok resp =>
      refine ⟨resp, rfl, ?_⟩
      simp only [fetchCycle, hl, if_true, hb, Notification.data.injEq] at h
      exact h.symm
  · simp [fetchCycle, hl] at h

/-- Unfolding of a fetch cycle whose login fails. -/
theorem fetchCycle_loginFail (st : HelperState) (cfg : Config) (env : FetchEnv)
    (h : env.loginOk = false) :
    fetchCycle st cfg env =
      { state := st, notif := .error loginFailMsg, browsed := [],
        requests := [loginRequest cfg env.deviceId] } := by
  simp [fetchCycle, h]

/-- Unfolding of a fetch cycle whose browse request throws. -/
theorem fetchCycle_browseThrow (st : HelperState) (cfg : Config) (env : FetchEnv) (m : String)
    (hl : env.loginOk = true) (hb : env.browse (selectedSource cfg) = .error m) :
    fetchCycle st cfg env =
      { state := { st with sid := some env.sid }, notif := .error m,
        browsed := [selectedSource cfg],
        requests := [loginRequest cfg env.deviceId,
          browseRequest cfg (selectedSource cfg) env.sid 0 (jsOrInt cfg.numPhotos 100)] } := by
  simp [fetchCycle, hl, hb]

/-- The source's retention filter coincides pointwise with the spec's wording. -/
theorem thumbReady_eq_spec (size : String) (p : RawItem) :
    thumbReady size p = specThumbnailReady size p := by
  cases hp : p.additional with
  | none => simp [thumbReady, specThumbnailReady, thumbMapOf, hp]
  | some a =>
    cases ha : a.thumbnail with
    | none => simp [thumbReady, specThumbnailReady, thumbMapOf, hp, ha]
    | some t => simp [thumbReady, specThumbnailReady, thumbMapOf, hp, ha]

/-- Unfolding of a fetch cycle whose browse request answers. -/
theorem fetchCycle_browseOk (st : HelperState) (cfg : Config) (env : FetchEnv) (resp : BrowseResp)
    (hl : env.loginOk = true) (hb : env.browse (selectedSource cfg) = .ok resp) :
    fetchCycle st cfg env =
      { state :=
          { sid := some env.sid
            photos := orderPhase cfg env.rand
              (((if resp.success then resp.list else []).filter
                  (thumbReady (jsOrStr cfg.thumbnailSize "xl"))).map
                (normalizePhoto cfg env.sid (jsOrStr cfg.thumbnailSize "xl"))) }
        notif := .data (orderPhase cfg env.rand
          (((if resp.success then resp.list else []).filter
              (thumbReady (jsOrStr cfg.thumbnailSize "xl"))).map
            (normalizePhoto cfg env.sid (jsOrStr cfg.thumbnailSize "xl"))))
        browsed := [selectedSource cfg]
        requests := [loginRequest cfg env.deviceId,
          browseRequest cfg (selectedSource cfg) env.sid 0 (jsOrInt cfg.numPhotos 100)] } := by
  simp [fetchCycle, hl, hb]

/-- C1 counterexample: for a concrete direct configuration and the granted
session id "sidABC123", the single photo retained by the fetch cycle has a
`url` field that contains the session id as a substring — the normalized
record handed to the display layer does expose the `_sid` value, contrary to
the claim. -/
theorem claim1_counterexample :
    (fetchCycle stPrev cfgDirect envOkOneItem).state.photos.map
        (fun p => listContainsSeq p.url.toList "sidABC123".toList) = [true] := by
  decide

/-- C1 (amended): the `url` field of every photo retained by a fetch cycle is
the local proxy path (prefix "/synology-photos/image?url=") wrapping the
percent-encoded signed thumbnail URL; since the session id consists of
URL-unreserved characters it survives the encoding verbatim, so the `url`
field ends with — and therefore contains — the current session's `_sid`
value. -/
theorem claim1_amended (st : HelperState) (cfg : Config) (env : FetchEnv) (l : List Photo)
    (p : Photo) (hsid : ∀ c ∈ env.sid.toList, uriUnreserved c = true)
    (hd : (fetchCycle st cfg env).notif = .data l) (hp : p ∈ l) :
    (∃ t, p.url.toList = t ++ env.sid.toList) ∧
      (∃ u, p.url.toList = "/synology-photos/image?url=".toList ++ u) := by
  obtain ⟨-, resp, -, hleq⟩ := fetchCycle_data_eq st cfg env l hd
  subst hleq
  have hp' := (orderPhase_perm cfg env.rand _).mem_iff.mp hp
  obtain ⟨q, hq, hpq⟩ := List.mem_map.mp hp'
  subst hpq
  have hsplit : buildThumbnailUrl cfg env.sid q (jsOrStr cfg.thumbnailSize "xl") =
      buildThumbnailUrl cfg "" q (jsOrStr cfg.thumbnailSize "xl") ++ env.sid := by
    rw [buildThumbnailUrl, buildThumbnailUrl, String.append_empty]
  have key : (normalizePhoto cfg env.sid (jsOrStr cfg.thumbnailSize "xl") q).url.toList =
      "/synology-photos/image?url=".toList ++
        (encodeUriList (buildThumbnailUrl cfg "" q (jsOrStr cfg.thumbnailSize "xl")).toList ++
          env.sid.toList) := by
    show ("/synology-photos/image?url=" ++
        encodeURIComponent (buildThumbnailUrl cfg env.sid q (jsOrStr cfg.thumbnailSize "xl"))).toList = _
    rw [hsplit]
    show "/synology-photos/image?url=".toList ++
        encodeUriList ((buildThumbnailUrl cfg "" q (jsOrStr cfg.thumbnailSize "xl") ++
          env.sid).toList) = _
    rw [show ∀ a b : String, (a ++ b).toList = a.toList ++ b.toList from
      fun a b => String.data_append a b]
    rw [encodeUriList_append, encodeUriList_of_unreserved env.sid.toList hsid]
  constructor
  · exact ⟨"/synology-photos/image?url=".toList ++
      encodeUriList (buildThumbnailUrl cfg "" q (jsOrStr cfg.thumbnailSize "xl")).toList,
      by rw [key, List.append_assoc]⟩
  · exact ⟨encodeUriList (buildThumbnailUrl cfg "" q (jsOrStr cfg.thumbnailSize "xl")).toList ++
      env.sid.toList, key⟩

/-- C1 amended witness: the concrete retained photo's url is the proxy path
and ends with the session id. -/
theorem claim1_amended_witness :
    (∃ t, (normalizePhoto cfgDirect "sidABC123" "xl" itemReadyXl).url.toList =
        t ++ "sidABC123".toList) ∧
      (∃ u, (normalizePhoto cfgDirect "sidABC123" "xl" itemReadyXl).url.toList =
        "/synology-photos/image?url=".toList ++ u) :=
  claim1_amended stPrev cfgDirect envOkOneItem _
    (normalizePhoto cfgDirect "sidABC123" "xl" itemReadyXl) (by decide) rfl (by decide)

/-- C2 counterexample: after a successful cycle published a non-empty catalog,
a browse-level failure response (`success: false`) does not leave the catalog
unchanged — the cycle replaces it with the empty catalog and emits a data
notification, not an error notification. -/
theorem claim2_counterexample :
    stPrev.photos = [photoPrev] ∧
      (fetchCycle stPrev cfgDirect envBrowseFail).state.photos = [] ∧
      (fetchCycle stPrev cfgDirect envBrowseFail).notif = .data [] := by
  refine ⟨rfl, ?_, ?_⟩ <;> decide

/-- C2 (amended): a login failure or a thrown browse error leaves the stored
catalog unchanged and emits an error notification; a browse-level failure
response, however, is treated as an empty listing — the catalog is replaced by
the empty catalog and an empty data notification is emitted. -/
theorem claim2_amended (st : HelperState) (cfg : Config) (env : FetchEnv) :
    (env.loginOk = false →
      (fetchCycle st cfg env).state.photos = st.photos ∧
        (fetchCycle st cfg env).notif = .error loginFailMsg) ∧
    (∀ m, env.loginOk = true → env.browse (selectedSource cfg) = .error m →
      (fetchCycle st cfg env).state.photos = st.photos ∧
        (fetchCycle st cfg env).notif = .error m) ∧
    (∀ resp, env.loginOk = true → env.browse (selectedSource cfg) = .ok resp →
      resp.success = false →
      (fetchCycle st cfg env).state.photos = [] ∧
        (fetchCycle st cfg env).notif = .data []) := by
  refine ⟨?_, ?_, ?_⟩
  · intro h
    rw [fetchCycle_loginFail st cfg env h]
    exact ⟨rfl, rfl⟩
  · intro m hl hb
    rw [fetchCycle_browseThrow st cfg env m hl hb]
    exact ⟨rfl, rfl⟩
  · intro resp hl hb hs
    rw [fetchCycle_browseOk st cfg env resp hl hb]
    simp [hs, orderPhase_nil]

/-- C2 amended witness: the login-failure case at a concrete state. -/
theorem claim2_amended_witness :
    (fetchCycle stPrev cfgDirect envLoginFail).state.photos = stPrev.photos ∧
      (fetchCycle stPrev cfgDirect envLoginFail).notif = .error loginFailMsg :=
  (claim2_amended stPrev cfgDirect envLoginFail).1 rfl

/-- C3: on a successful browse the output catalog consists (up to the ordering
stage, which permutes) of the normalizations of exactly those listing items
whose thumbnail-readiness map marks the configured target size as the string
"ready" or the boolean true; items with a missing map, a missing entry, or
any other value are dropped. -/
theorem claim3_filter (st : HelperState) (cfg : Config) (env : FetchEnv) (resp : BrowseResp)
    (l : List Photo) (_hl : env.loginOk = true)
    (hb : env.browse (selectedSource cfg) = .ok resp) (hs : resp.success = true)
    (hd : (fetchCycle st cfg env).notif = .data l) :
    l.Perm ((resp.list.filter (specThumbnailReady (jsOrStr cfg.thumbnailSize "xl"))).map
      (normalizePhoto cfg env.sid (jsOrStr cfg.thumbnailSize "xl"))) := by
  obtain ⟨-, resp', hb', hleq⟩ := fetchCycle_data_eq st cfg env l hd
  rw [hb] at hb'
  injection hb' with hb'
  subst hb'
  subst hleq
  refine (orderPhase_perm cfg env.rand _).trans ?_
  rw [hs]
  rw [List.filter_congr (fun p _ => thumbReady_eq_spec (jsOrStr cfg.thumbnailSize "xl") p)]
  simp

/-- C3 witness: the spec's own example — target size sm, one ready item and
one still-processing item — retains exactly the ready item. -/
theorem claim3_filter_witness :
    ((fetchCycle stEmpty cfgSm envSm).state.photos).Perm
      ([itemSmReady, itemSmProcessing].filter (specThumbnailReady "sm")
        |>.map (normalizePhoto cfgSm "sidSm" "sm")) :=
  claim3_filter stEmpty cfgSm envSm { success := true, list := [itemSmReady, itemSmProcessing] }
    _ rfl rfl rfl rfl

/-- C4: for every direct (non-relay) server address, STEP 1 produces exactly
one connection candidate; the endpoint probe tries `/webapi` on it first and
falls back to `/photo/webapi` only when `/webapi` yields no valid API-info
response. -/
theorem claim4_direct (serverArg : String) (test : Candidate → String → Bool)
    (query : String → RelayOutcome) (hd : (parseServer serverArg).isQuickConnect = false) :
    stepOneCandidates (parseServer serverArg) query = [directCandidate (parseServer serverArg)] ∧
    (test (directCandidate (parseServer serverArg)) "/webapi" = true →
      probeLoop test (stepOneCandidates (parseServer serverArg) query) =
        some (directCandidate (parseServer serverArg), "/webapi")) ∧
    (test (directCandidate (parseServer serverArg)) "/webapi" = false →
      probeLoop test (stepOneCandidates (parseServer serverArg) query) =
        (if test (directCandidate (parseServer serverArg)) "/photo/webapi" then
          some (directCandidate (parseServer serverArg), "/photo/webapi")
        else none)) := by
  revert hd
  generalize parseServer serverArg = s
  intro hd
  refine ⟨by simp [stepOneCandidates, hd], ?_, ?_⟩
  · intro h1
    simp [stepOneCandidates, hd, probeLoop, probePaths, apiPaths, h1]
  · intro h1
    by_cases h2 : test (directCandidate s) "/photo/webapi" <;>
      simp [stepOneCandidates, hd, probeLoop, probePaths, apiPaths, h1, h2]

/-- C4 witness: a concrete LAN address where `/webapi` fails and the probe
falls back to `/photo/webapi`. -/
theorem claim4_direct_witness :
    stepOneCandidates (parseServer "192.168.1.100:5001") queryNever =
        [directCandidate (parseServer "192.168.1.100:5001")] ∧
      (testSecondPath (directCandidate (parseServer "192.168.1.100:5001")) "/webapi" = true →
        probeLoop testSecondPath (stepOneCandidates (parseServer "192.168.1.100:5001") queryNever) =
          some (directCandidate (parseServer "192.168.1.100:5001"), "/webapi")) ∧
      (testSecondPath (directCandidate (parseServer "192.168.1.100:5001")) "/webapi" = false →
        probeLoop testSecondPath (stepOneCandidates (parseServer "192.168.1.100:5001") queryNever) =
          (if testSecondPath (directCandidate (parseServer "192.168.1.100:5001")) "/photo/webapi" then
            some (directCandidate (parseServer "192.168.1.100:5001"), "/photo/webapi")
          else none)) :=
  claim4_direct "192.168.1.100:5001" testSecondPath queryNever (by decide)

/-- C5: for every relay address and every relay-query behaviour — including
network errors, malformed payloads and payloads without a `server` field —
resolution returns a non-empty candidate list whose last element is the relay
address itself. -/
theorem claim5_relay_fallback (fullDomain : String) (query : String → RelayOutcome) :
    resolveQuickConnect fullDomain query ≠ [] ∧
      (resolveQuickConnect fullDomain query).getLast? =
        some { url := "https://" ++ fullDomain, label := "QuickConnect" } := by
  constructor
  · simp [resolveQuickConnect]
  · simp [resolveQuickConnect]

/-- C6: whenever more than one source selector is configured (truthy), the
fetch orchestrator queries exactly one source, chosen by the precedence album
over folder over shared space (personal space being only the default). -/
theorem claim6_precedence (st : HelperState) (cfg : Config) (env : FetchEnv)
    (hl : env.loginOk = true) (hc : 1 < selectorsSetCount cfg) :
    (fetchCycle st cfg env).browsed.length = 1 ∧
    (jsTruthyInt cfg.albumId = true →
      (fetchCycle st cfg env).browsed = [Source.album (cfg.albumId.getD 0)]) ∧
    (jsTruthyInt cfg.albumId = false →
      (fetchCycle st cfg env).browsed = [Source.folder (cfg.folderId.getD 0)]) := by
  have hbr : (fetchCycle st cfg env).browsed = [selectedSource cfg] := by
    cases hb : env.browse (selectedSource cfg) with
    | error m => rw [fetchCycle_browseThrow st cfg env m hl hb]
    | ok resp => rw [fetchCycle_browseOk st cfg env resp hl hb]
  refine ⟨by rw [hbr]; rfl, ?_, ?_⟩
  · intro ha
    rw [hbr]
    simp [selectedSource, ha]
  · intro ha
    cases hf : jsTruthyInt cfg.folderId with
    | false =>
      exfalso
      simp [selectorsSetCount, ha, hf] at hc
      split at hc <;> omega
    | true =>
      rw [hbr]
      simp [selectedSource, ha, hf]

/-- C6 witness: with album 5, folder 7 and shared space all configured, the
cycle browses exactly the album source. -/
theorem claim6_precedence_witness :
    (fetchCycle stEmpty cfgMulti envOkOneItem).browsed.length = 1 ∧
      (fetchCycle stEmpty cfgMulti envOkOneItem).browsed = [Source.album 5] :=
  ⟨(claim6_precedence stEmpty cfgMulti envOkOneItem rfl (by decide)).1,
    (claim6_precedence stEmpty cfgMulti envOkOneItem rfl (by decide)).2.1 rfl⟩

/-- C7: with shuffle disabled and sort-by-time enabled, the published Photo
sequence is non-increasing in its `time` field. -/
theorem claim7_sorted (st : HelperState) (cfg : Config) (env : FetchEnv) (l : List Photo)
    (hsh : cfg.shuffle = false) (hsort : cfg.sortBy = some "time")
    (hd : (fetchCycle st cfg env).notif = .data l) :
    l.Pairwise (fun a b => b.time ≤ a.time) := by
  obtain ⟨-, resp, -, hleq⟩ := fetchCycle_data_eq st cfg env l hd
  subst hleq
  unfold orderPhase
  simp only [hsh, Bool.false_eq_true, if_false, hsort, beq_self_eq_true, if_true]
  have htrans : ∀ a b c : Photo,
      timeDescLe a b = true → timeDescLe b c = true → timeDescLe a c = true := by
    intro a b c hab hbc
    simp only [timeDescLe, decide_eq_true_eq] at *
    omega
  have htotal : ∀ a b : Photo, (timeDescLe a b || timeDescLe b a) = true := by
    intro a b
    simp only [timeDescLe, Bool.or_eq_true, decide_eq_true_eq]
    omega
  exact (List.sorted_mergeSort htrans htotal _).imp
    (fun h => by simpa [timeDescLe] using h)

/-- C7 witness: two items served out of time order come out sorted most
recent first. -/
theorem claim7_sorted_witness :
    ((fetchCycle stEmpty cfgSortTime envTwoItems).state.photos).Pairwise
      (fun a b => b.time ≤ a.time) :=
  claim7_sorted stEmpty cfgSortTime envTwoItems _ rfl rfl rfl

/-- C8: the thumbnail proxy answers a missing or empty `url` parameter with
the 400 client error and attempts no upstream fetch; with a target present, a
non-success upstream response is passed through with the same status, and a
thrown network error produces the 500 proxy-failure response instead of
propagating. -/
theorem claim8_proxy (u : Option String) (fr : Except String Upstream) :
    ((u = none ∨ u = some "") →
      handleProxyRequest u fr =
        ({ status := 400, body := "Missing URL", contentType := none, cacheControl := none },
          false)) ∧
    (∀ s up, u = some s → s ≠ "" → fr = .ok up → upstreamOk up = false →
      (handleProxyRequest u fr).1.status = up.status ∧ (handleProxyRequest u fr).2 = true) ∧
    (∀ s m, u = some s → s ≠ "" → fr = .error m →
      (handleProxyRequest u fr).1 =
        { status := 500, body := "Proxy error", contentType := none, cacheControl := none } ∧
        (handleProxyRequest u fr).2 = true) := by
  refine ⟨?_, ?_, ?_⟩
  · rintro (rfl | rfl) <;> simp [handleProxyRequest, jsTruthyStr]
  · rintro s up rfl hs rfl hok
    simp [handleProxyRequest, jsTruthyStr, hs, hok]
  · rintro s m rfl hs rfl
    simp [handleProxyRequest, jsTruthyStr, hs]

/-- C8 witness: the missing-parameter case. -/
theorem claim8_proxy_witness :
    handleProxyRequest none (.error "x") =
      ({ status := 400, body := "Missing URL", contentType := none, cacheControl := none },
        false) :=
  (claim8_proxy none (.error "x")).1 (Or.inl rfl)

/-- C9: when the `secure` flag is absent, the login request's base URL uses
the http scheme while the base URL of every browse request and every signed
thumbnail URL uses the https scheme — the two kinds of request target
different schemes for the same configuration. -/
theorem claim9_schemes (cfg : Config) (h : cfg.secure = none) :
    (∃ r, loginBaseUrl cfg = "http://" ++ r) ∧
    (∀ src sid offset limit, ∃ r,
      (browseRequest cfg src sid offset limit).baseUrl = "https://" ++ r) ∧
    (∀ (sid : String) (p : RawItem) (size : String), ∃ r,
      buildThumbnailUrl cfg sid p size = "https://" ++ r) := by
  have hbase : getBaseUrl cfg = "https://" ++ (cfg.serverUrl ++ portFragment cfg.port) := by
    rw [getBaseUrl, h]
    show ("https://" ++ cfg.serverUrl) ++ portFragment cfg.port = _
    exact String.append_assoc _ _ _
  refine ⟨?_, ?_, ?_⟩
  · refine ⟨cfg.serverUrl ++ portFragment cfg.port, ?_⟩
    rw [loginBaseUrl, h]
    show ("http://" ++ cfg.serverUrl) ++ portFragment cfg.port = _
    exact String.append_assoc _ _ _
  · intro src sid offset limit
    exact ⟨cfg.serverUrl ++ portFragment cfg.port, hbase⟩
  · intro sid p size
    refine ⟨?_, ?_⟩
    · exact (cfg.serverUrl ++ portFragment cfg.port) ++ getApiPath cfg ++ "/entry.cgi" ++
        "?api=" ++ (if cfg.sharedSpace then "SYNO.FotoTeam.Thumbnail" else "SYNO.Foto.Thumbnail") ++
        "&version=1" ++ "&method=get" ++ "&mode=download" ++
        "&id=" ++ toString p.id ++ "&type=unit" ++ "&size=" ++ size ++
        "&cache_key=" ++ cacheKeyOf p ++ "&_sid=" ++ sid
    · rw [buildThumbnailUrl, hbase]
      simp only [String.append_assoc]

/-- C9 witness: the two schemes at a concrete configuration without `secure`. -/
theorem claim9_schemes_witness :
    (∃ r, loginBaseUrl cfgNoSecure = "http://" ++ r) ∧
      (∀ src sid offset limit, ∃ r,
        (browseRequest cfgNoSecure src sid offset limit).baseUrl = "https://" ++ r) ∧
      (∀ (sid : String) (p : RawItem) (size : String), ∃ r,
        buildThumbnailUrl cfgNoSecure sid p size = "https://" ++ r) :=
  claim9_schemes cfgNoSecure rfl

/-- C10: the `limit` query parameter of the one browse request issued per
cycle equals the configured `numPhotos` when that value is truthy and 100
otherwise; in particular `numPhotos = 0` yields a request limit of 100. -/
theorem claim10_limit (st : HelperState) (cfg : Config) (env : FetchEnv)
    (hl : env.loginOk = true) :
    (∀ n : Int, cfg.numPhotos = some n → ¬n = 0 →
      (fetchCycle st cfg env).requests.filterMap (fun r => paramLookup r.params "limit") =
        [toString n]) ∧
    (cfg.numPhotos = none ∨ cfg.numPhotos = some 0 →
      (fetchCycle st cfg env).requests.filterMap (fun r => paramLookup r.params "limit") =
        ["100"]) := by
  have hreq : (fetchCycle st cfg env).requests =
      [loginRequest cfg env.deviceId,
        browseRequest cfg (selectedSource cfg) env.sid 0 (jsOrInt cfg.numPhotos 100)] := by
    cases hb : env.browse (selectedSource cfg) with
    | error m => rw [fetchCycle_browseThrow st cfg env m hl hb]
    | ok resp => rw [fetchCycle_browseOk st cfg env resp hl hb]
  have hlogin : paramLookup (loginRequest cfg env.deviceId).params "limit" = none := by
    cases hdev : env.deviceId <;> rfl
  have hbrowse : ∀ lim : Int,
      paramLookup (browseRequest cfg (selectedSource cfg) env.sid 0 lim).params "limit" =
        some (toString lim) := by
    intro lim
    cases hsrc : selectedSource cfg <;> simp [browseRequest, paramLookup, sourceIdParams, hsrc]
  constructor
  · intro n hn hnz
    rw [hreq]
    simp [List.filterMap_cons, hlogin, hbrowse, jsOrInt, jsTruthyInt, hn, hnz]
  · rintro (hn | hn) <;>
      (rw [hreq]; simp [List.filterMap_cons, hlogin, hbrowse, jsOrInt, jsTruthyInt, hn]) <;>
      rfl

/-- C10 witness: configured `numPhotos = 0` produces a browse limit of 100. -/
theorem claim10_limit_witness :
    (fetchCycle stEmpty cfgNumZero envOkOneItem).requests.filterMap
        (fun r => paramLookup r.params "limit") = ["100"] :=
  (claim10_limit stEmpty cfgNumZero envOkOneItem rfl).2 (Or.inr rfl)

end SynologyPhotos
